import Mathlib

/-!
Shallow embedding of the Rolistik API backend (user registration,
authentication and user CRUD) and verification of its specification.

The embedding follows the Python sources:
  app/core/security.py        (password strength scoring, token service)
  app/repositories/base.py    (generic repository CRUD)
  app/repositories/user.py    (user-specific queries and statistics)
  app/services/user_service.py(registration / authentication service)
  app/api/dependencies.py     (request authentication guards)
  app/api/v1/endpoints/users.py (registration endpoint)
  app/models/users.py         (User document model)

Machine integers are modelled as Int/Nat, Python floats arising from the
single division in `get_user_stats` as ℚ, instants as Int timestamps, and
fallible Python code as Except values.  External collaborators (the jose
JWT library, the document store) are modelled from the specification where
noted.
-/

namespace Rolistik

/-- Python runtime errors that the embedded code can raise. -/
inductive PyError where
  | typeError (msg : String)
  | attributeError (msg : String)
  | keyError
  | zeroDivisionError
  deriving DecidableEq, Repr

/-- FastAPI HTTPException as raised by the source: a status code and a
human-readable detail message. -/
structure HTTPException where
  status_code : Nat
  detail : String
  deriving DecidableEq, Repr

/-- The JWT claim set used by the code.  Recognized claims are `sub`
(subject id), `exp` (seconds-since-epoch expiry), `type` (token type,
absent means access) and the caller-supplied `username`; each is optional
because Python dicts may omit any key.  `token_type` embeds the `type`
key (`type` is reserved in Lean). -/
structure Claims where
  sub : Option String := none
  exp : Option Int := none
  token_type : Option String := none
  username : Option String := none
  deriving DecidableEq, Repr

/-- A signed compact token: the claim set it encodes plus whether its
signature verifies against the process-wide secret key. -/
structure Token where
  claims : Claims
  sig_ok : Bool
  deriving DecidableEq, Repr

/-- Modelled from the spec: the external jose library error type raised by
`jwt.decode` (malformed token, signature mismatch, or expired). -/
inductive JWTError where
  | invalid
  deriving DecidableEq, Repr

/-- Modelled from the spec: the external jose library `jwt.encode` — signs
the claim set with the process-wide secret key, so the signature of the
resulting token verifies. -/
def jwt_encode (payload : Claims) : Token :=
  { claims := payload, sig_ok := true }

/-- Modelled from the spec: the external jose library `jwt.decode` —
"verifies signature and expiry; fails with `InvalidToken` when the
signature does not verify, is malformed, or `exp` has passed."  `now` is
the decoding instant. -/
def jwt_decode (tok : Token) (now : Int) : Except JWTError Claims :=
  if tok.sig_ok = false then .error .invalid
  else
    match tok.claims.exp with
    | some e => if e ≤ now then .error .invalid else .ok tok.claims
    | none => .ok tok.claims

/-- Embeds `app/config/settings.py`: `access_token_expire_minutes: int = 30`. -/
def ACCESS_TOKEN_EXPIRE_MINUTES : Int := 30

/-- Models Python `datetime.now(arg)`: the argument must be None or a
tzinfo instance; the source passes `datetime.timestamp`, a plain method
object, which makes CPython raise
`TypeError: tzinfo argument must be None or of a tzinfo subclass`. -/
inductive DatetimeNowArg where
  | tzinfoUtc
  | methodDatetimeTimestamp
  deriving DecidableEq, Repr

/-- Models Python `datetime.now` applied to `arg` at wall-clock instant
`clock` (an Int timestamp): returns the instant when `arg` is a tzinfo,
raises TypeError otherwise. -/
def datetime_now (arg : DatetimeNowArg) (clock : Int) : Except PyError Int :=
  match arg with
  | .tzinfoUtc => .ok clock
  | .methodDatetimeTimestamp =>
      .error (.typeError "tzinfo argument must be None or of a tzinfo subclass")

/-- Embeds `create_access_token` (app/core/security.py lines 49-73):
`expire = datetime.now(datetime.timestamp) + expires_delta` (or
`+ timedelta(minutes=ACCESS_TOKEN_EXPIRE_MINUTES)` when no delta is
given); `to_encode.update({"exp": expire})`; then `jwt.encode`.
Durations are in seconds. -/
def create_access_token (data : Claims) (expires_delta : Option Int)
    (clock : Int) : Except PyError Token := do
  let to_encode := data
  let expire ←
    match expires_delta with
    | some delta => (datetime_now .methodDatetimeTimestamp clock).map (· + delta)
    | none =>
        (datetime_now .methodDatetimeTimestamp clock).map
          (· + ACCESS_TOKEN_EXPIRE_MINUTES * 60)
  .ok (jwt_encode { to_encode with exp := some expire })

/-- Embeds `create_refresh_token` (app/core/security.py lines 76-100):
like `create_access_token` but the default lifetime is
`timedelta(days=7)` and the update also sets `"type": "refresh"`. -/
def create_refresh_token (data : Claims) (expires_delta : Option Int)
    (clock : Int) : Except PyError Token := do
  let to_encode := data
  let expire ←
    match expires_delta with
    | some delta => (datetime_now .methodDatetimeTimestamp clock).map (· + delta)
    | none =>
        (datetime_now .methodDatetimeTimestamp clock).map (· + 7 * 24 * 60 * 60)
  .ok (jwt_encode { to_encode with exp := some expire, token_type := some "refresh" })

/-- Embeds `decode_token` (app/core/security.py lines 103-124): calls
`jwt.decode` and converts any JWTError into HTTPException 401
"Token invalide". -/
def decode_token (token : Token) (now : Int) : Except HTTPException Claims :=
  match jwt_decode token now with
  | .ok payload => .ok payload
  | .error _ => .error { status_code := 401, detail := "Token invalide" }

/-- The error raised by `validate_token_type` on a type-claim mismatch:
HTTPException 401 with detail `f"Type de token invalide. Attendu:
{expected_type}"`.  This is the `WrongTokenType` error of the spec, distinguished
from the decode error by its detail message. -/
def wrongTokenTypeError (expected_type : String) : HTTPException :=
  { status_code := 401, detail := "Type de token invalide. Attendu: " ++ expected_type }

/-- Embeds `validate_token_type` (app/core/security.py lines 153-177):
decodes the token, reads `payload.get("type", "access")` and raises the
wrong-token-type HTTPException when it differs from `expected_type`,
returning the payload otherwise. -/
def validate_token_type (token : Token) (expected_type : String)
    (now : Int) : Except HTTPException Claims :=
  match decode_token token now with
  | .error e => .error e
  | .ok payload =>
      let token_type := payload.token_type.getD "access"
      if token_type ≠ expected_type then .error (wrongTokenTypeError expected_type)
      else .ok payload

/-- Embeds `get_user_id_from_token` (app/core/security.py lines 127-150):
decodes the token and returns `payload.get("sub")`, raising
HTTPException 401 when the claim is absent. -/
def get_user_id_from_token (token : Token) (now : Int) :
    Except HTTPException String :=
  match decode_token token now with
  | .error e => .error e
  | .ok payload =>
      match payload.sub with
      | none =>
          .error { status_code := 401
                   detail := "Token invalide: pas d\x27identifiant utilisateur" }
      | some user_id => .ok user_id

/-- Embeds the `User` Beanie document (app/models/users.py lines 6-20).
Field defaults follow the source: `is_active: bool = True`,
`is_gamemaster: bool = False`, `is_superuser: bool = False`,
`created_at` defaulting to `datetime.now(timezone.utc)` at construction
time (instants as Int timestamps). -/
structure User where
  email : String
  username : String
  hashed_password : String
  full_name : Option String := none
  is_active : Bool := true
  is_gamemaster : Bool := false
  is_superuser : Bool := false
  created_at : Int
  updated_at : Option Int := none
  last_login : Option Int := none
  deriving DecidableEq, Repr

/-- Constructs a `User` without supplying the status flags, as
`User(email=..., username=..., hashed_password=..., full_name=...)` does:
pydantic fills `is_active`/`is_gamemaster`/`is_superuser` from their
declared defaults and runs the `created_at` default factory
`datetime.now(timezone.utc)`, whose value at construction time is
`utcNow`. -/
def User.mkDefault (email username hashed_password : String)
    (full_name : Option String) (utcNow : Int) : User :=
  { email := email, username := username, hashed_password := hashed_password
    full_name := full_name, created_at := utcNow }

/-- The persisted users collection: store-assigned ids mapped to
documents.  the `get` classmethod of a Beanie `Model` is a point lookup by id. -/
abbrev Store := List (String × User)

/-- Embeds `BaseRepository.get` (app/repositories/base.py lines 18-19):
`await self.model.get(id)` — point lookup by id, absent is `None`. -/
def repo_get (store : Store) (id : String) : Option User :=
  (store.find? (fun e => e.1 = id)).map (fun e => e.2)

/-- Models `await obj.save()` on a loaded document: the stored document
with the same id is replaced by the mutated object. -/
def repo_save (store : Store) (id : String) (obj : User) : Store :=
  store.map (fun e => if e.1 = id then (e.1, obj) else e)

/-- A partial update payload as produced by
`obj_in.dict(exclude_unset=True)`: only the fields the caller set, as a
field-name/value list.  `UserUpdate` (app/schemas/user.py) exposes
`email`, `username`, `full_name`, `is_active` and `is_gamemaster`;
field values are embedded as the corresponding setter functions built by
`FieldPatch.set`. -/
inductive FieldPatch where
  | email (v : String)
  | username (v : String)
  | full_name (v : Option String)
  | is_active (v : Bool)
  | is_gamemaster (v : Bool)
  deriving DecidableEq, Repr

/-- The field name a patch entry carries, mirroring the dict key. -/
def FieldPatch.key : FieldPatch → String
  | .email _ => "email"
  | .username _ => "username"
  | .full_name _ => "full_name"
  | .is_active _ => "is_active"
  | .is_gamemaster _ => "is_gamemaster"

/-- Models `setattr(obj, field, value)` for one dict entry. -/
def FieldPatch.set (p : FieldPatch) (obj : User) : User :=
  match p with
  | .email v => { obj with email := v }
  | .username v => { obj with username := v }
  | .full_name v => { obj with full_name := v }
  | .is_active v => { obj with is_active := v }
  | .is_gamemaster v => { obj with is_gamemaster := v }

/-- Models the loop `for field, value in obj_in.dict(exclude_unset=True)
.items(): setattr(obj, field, value)`. -/
def applyPatches (obj : User) (obj_in : List FieldPatch) : User :=
  obj_in.foldl (fun acc p => p.set acc) obj

/-- Embeds `BaseRepository.update` (app/repositories/base.py lines
21-28): load by id; on a miss return `None` without writing; otherwise
set exactly the supplied fields, save, and return the updated record.
The result pairs the returned value with the post-call store. -/
def repo_update (store : Store) (id : String) (obj_in : List FieldPatch) :
    Option User × Store :=
  match repo_get store id with
  | none => (none, store)
  | some obj =>
      let obj' := applyPatches obj obj_in
      (some obj', repo_save store id obj')

/-- Embeds `UserRepository.get_by_email` (app/repositories/user.py lines
20-30): `User.find_one(User.email == email)` — first stored document
whose email matches. -/
def get_by_email (store : Store) (email : String) : Option User :=
  (store.find? (fun e => e.2.email = email)).map (fun e => e.2)

/-- Embeds `UserRepository.count_total_users` (app/repositories/user.py
lines 134-141): `User.find_all().count()`. -/
def count_total_users (store : Store) : Nat :=
  store.length

/-- Embeds `UserRepository.count_active_users` (app/repositories/user.py
lines 125-132): `User.find(User.is_active == True).count()`. -/
def count_active_users (store : Store) : Nat :=
  (store.filter (fun e => e.2.is_active)).length

/-- Embeds `UserRepository.get_superusers` (app/repositories/user.py
lines 90-97): `User.find(User.is_superuser == True).to_list()`. -/
def get_superusers (store : Store) : List (String × User) :=
  store.filter (fun e => e.2.is_superuser)

/-- The dictionary returned by `get_user_stats`.  Counts are Python ints
(`inactive_users` as Int since it is a subtraction); `activation_rate`
is a Python float division result, embedded as ℚ. -/
structure UserStats where
  total_users : Nat
  active_users : Nat
  inactive_users : Int
  superusers : Nat
  activation_rate : ℚ
  deriving DecidableEq, Repr

/-- Models Python float division `a / b`, which raises
ZeroDivisionError when `b` is zero. -/
def pyDiv (a b : ℚ) : Except PyError ℚ :=
  if b = 0 then .error .zeroDivisionError else .ok (a / b)

/-- Embeds `UserRepository.get_user_stats` (app/repositories/user.py
lines 366-383): totals from the count queries, `inactive_users = total -
active`, and `activation_rate = (active / total * 100) if total > 0 else
0`, the conditional guarding the division. -/
def get_user_stats (store : Store) : Except PyError UserStats := do
  let total := count_total_users store
  let active := count_active_users store
  let superusers := (get_superusers store).length
  let activation_rate ←
    if total > 0 then (pyDiv (active : ℚ) (total : ℚ)).map (· * 100)
    else .ok 0
  .ok { total_users := total, active_users := active
        inactive_users := (total : Int) - (active : Int)
        superusers := superusers, activation_rate := activation_rate }

/-- The value a User field holds, as a single sum so that distinct fields
can be compared uniformly ("byte-identical" is value equality). -/
inductive FieldVal where
  | s (v : String)
  | os (v : Option String)
  | b (v : Bool)
  | i (v : Int)
  | oi (v : Option Int)
  deriving DecidableEq, Repr

/-- View of a `User` document as a map from field name to value, covering
all ten model fields. -/
def User.getField (u : User) : String → Option FieldVal
  | "email" => some (.s u.email)
  | "username" => some (.s u.username)
  | "hashed_password" => some (.s u.hashed_password)
  | "full_name" => some (.os u.full_name)
  | "is_active" => some (.b u.is_active)
  | "is_gamemaster" => some (.b u.is_gamemaster)
  | "is_superuser" => some (.b u.is_superuser)
  | "created_at" => some (.i u.created_at)
  | "updated_at" => some (.oi u.updated_at)
  | "last_login" => some (.oi u.last_login)
  | _ => none

/-- The value a patch entry carries, in the uniform field-value sum. -/
def FieldPatch.val : FieldPatch → FieldVal
  | .email v => .s v
  | .username v => .s v
  | .full_name v => .os v
  | .is_active v => .b v
  | .is_gamemaster v => .b v

/-- Authentication outcome of the guard layer: either an HTTPException
propagates to the HTTP boundary or a resolved user is handed to the
route handler. -/
abbrev GuardResult := Except HTTPException User

/-- Embeds `get_current_user_optional` (app/api/dependencies.py lines
157-194): absent credentials yield `None`; otherwise the token is
decoded (a JWTError is caught by `except JWTError: pass`), the `sub`
claim extracted (`None` on absence), the user loaded
(`user_repository.get`), and returned only when found and active; every
other path falls through to `return None`. -/
def get_current_user_optional (credentials : Option Token) (now : Int)
    (store : Store) : Option User :=
  match credentials with
  | none => none
  | some token =>
      match jwt_decode token now with
      | .error _ => none
      | .ok payload =>
          match payload.sub with
          | none => none
          | some user_id =>
              match repo_get store user_id with
              | some user => if user.is_active then some user else none
              | none => none

/-- Embeds `get_current_user` (app/api/dependencies.py lines 64-116):
decode the token (JWTError → 401 "Token invalide"), require a `sub`
claim (401), load the user (401 "Utilisateur non trouvé" on a miss) and
require `is_active` (401 "Utilisateur inactif"). -/
def get_current_user (token : Token) (now : Int) (store : Store) :
    GuardResult :=
  match jwt_decode token now with
  | .error _ => .error { status_code := 401, detail := "Token invalide" }
  | .ok payload =>
      match payload.sub with
      | none => .error { status_code := 401, detail := "Token invalide" }
      | some user_id =>
          match repo_get store user_id with
          | none => .error { status_code := 401, detail := "Utilisateur non trouvé" }
          | some user =>
              if user.is_active = false then
                .error { status_code := 401, detail := "Utilisateur inactif" }
              else .ok user

/-- Embeds the inner `check_permissions` closure of `require_permissions`
(app/api/dependencies.py lines 408-437) applied to an already-resolved
current user.  `user_permissions` is the result of
`getattr` of the `permissions` attribute with fallback `[]` (the User model declares no
such field, so on repository users it is `[]`; it is passed explicitly
here so the dependence on it can be stated).  The body runs the per-user
check only when `permissions` is non-empty and the user is not a
superuser: `if not current_user.is_superuser and permissions: if not
all(perm in user_permissions for perm in permissions): raise 403`. -/
def check_permissions (permissions : List String) (current_user : User)
    (user_permissions : List String) : GuardResult :=
  if current_user.is_superuser = false ∧ permissions ≠ [] then
    if (permissions.all (fun perm => user_permissions.contains perm)) = false then
      .error { status_code := 403, detail := "Permissions insuffisantes" }
    else .ok current_user
  else .ok current_user

/-- The validated registration input `UserCreate` (app/schemas/user.py):
email, username, optional full name and a plaintext password. -/
structure UserCreate where
  email : String
  username : String
  full_name : Option String := none
  password : String
  deriving DecidableEq, Repr

/-- The `user_data` dict built by `UserService.create_user`: the dump of
the input with `password` popped and `hashed_password` set to its hash. -/
structure UserData where
  email : String
  username : String
  full_name : Option String
  hashed_password : String
  deriving DecidableEq, Repr

/-- The methods an instance of `UserRepository` resolves, collected from
`class UserRepository` (app/repositories/user.py) and its base
`class BaseRepository` (app/repositories/base.py); Python attribute
lookup on any other name raises AttributeError. -/
def userRepositoryMethods : List String :=
  ["create", "get", "update", "delete", "list",
   "get_by_email", "get_by_username", "get_by_email_or_username",
   "get_active_users", "get_inactive_users", "get_superusers",
   "search_users", "count_active_users", "count_total_users",
   "count_new_users_today", "activate_user", "deactivate_user",
   "update_password", "update_last_login", "email_exists",
   "username_exists", "email_exists_exclude_user", "get_users_by_ids",
   "bulk_activate_users", "bulk_deactivate_users",
   "get_users_with_filters", "get_user_stats"]

/-- Embeds `UserService.create_user` (app/services/user_service.py lines
11-14): `user_data = user_in.model_dump()`;
`user_data["hashed_password"] = get_password_hash(user_data.pop
("password"))`; `return await self.repository.create_user(user_data)`.
`hash` stands for the external `get_password_hash` (passlib bcrypt).
The final statement resolves the attribute `create_user` on the
repository instance, whose methods are `userRepositoryMethods`. -/
def UserService.create_user (hash : String → String) (user_in : UserCreate)
    (store : Store) : Except PyError (User × Store) :=
  let user_data : UserData :=
    { email := user_in.email, username := user_in.username
      full_name := user_in.full_name
      hashed_password := hash user_in.password }
  if h : "create_user" ∈ userRepositoryMethods then
    absurd h (by decide)
  else
    let _ := user_data
    .error (.attributeError "\x27UserRepository\x27 object has no attribute \x27create_user\x27")

/-- An error escaping the registration endpoint: either an HTTPException
it raises itself or a Python error propagating from the service call. -/
inductive ApiError where
  | http (e : HTTPException)
  | py (e : PyError)
  deriving DecidableEq, Repr

/-- Embeds the `POST /users/` handler (app/api/v1/endpoints/users.py
lines 8-20): `existing_user = await user_service.get_user_by_email
(user_in.email)` (which is `UserRepository.get_by_email`); when a user
exists, raise HTTPException 400 "Email already registered"; otherwise
delegate to `user_service.create_user`.  The result pairs the outcome
with the post-call store. -/
def api_create_user (hash : String → String) (user_in : UserCreate)
    (store : Store) : Except ApiError User × Store :=
  match get_by_email store user_in.email with
  | some _ =>
      (.error (.http { status_code := 400, detail := "Email already registered" }),
       store)
  | none =>
      match UserService.create_user hash user_in store with
      | .error e => (.error (.py e), store)
      | .ok (user, store') => (.ok user, store')

/-- The special-character class of the strength regex
`[!@#$%^&*(),.?":\x7b\x7d|<>]` (app/core/security.py line 332), as the
list of its member characters. -/
def specialChars : List Char :=
  ['!', '@', '#', '$', '%', '^', '&', '*', '(', ')', ',', '.', '?',
   '\x22', ':', '\x7b', '\x7d', '|', '<', '>']

/-- Models the `re.search` for the class `[a-z]` as a Boolean: some character
is an ASCII lowercase letter. -/
def hasLower (password : String) : Bool :=
  password.data.any (fun c => c.isLower)

/-- Models the `re.search` for the class `[A-Z]`: some character is an ASCII
uppercase letter. -/
def hasUpper (password : String) : Bool :=
  password.data.any (fun c => c.isUpper)

/-- Models the `re.search` for the digit class `\d`: some character is a decimal
digit (ASCII digits). -/
def hasDigit (password : String) : Bool :=
  password.data.any (fun c => c.isDigit)

/-- Models the `re.search` for the special-character class: some
character belongs to `specialChars`. -/
def hasSpecial (password : String) : Bool :=
  password.data.any (fun c => specialChars.contains c)

/-- The result dict of `validate_password_strength`. -/
structure StrengthResult where
  score : Nat
  max_score : Nat
  strength : String
  is_strong : Bool
  feedback : List String
  deriving DecidableEq, Repr

/-- Embeds the `strength_levels` dict of `validate_password_strength`
(app/core/security.py lines 341-349); lookup of a missing key is a
KeyError, hence the Option. -/
def strength_levels : Nat → Option String
  | 0 => some "Très faible"
  | 1 => some "Très faible"
  | 2 => some "Faible"
  | 3 => some "Moyen"
  | 4 => some "Fort"
  | 5 => some "Très fort"
  | 6 => some "Excellent"
  | _ => none

/-- Embeds `validate_password_strength` (app/core/security.py lines
294-357): six checks each award one point or append a feedback message
(the two length checks award silently only for the second), then the
label is read from `strength_levels[score]` and `is_strong` is
`score >= 4`. -/
def validate_password_strength (password : String) :
    Except PyError StrengthResult :=
  let st0 : Nat × List String := (0, [])
  let st1 :=
    if password.length ≥ 8 then (st0.1 + 1, st0.2)
    else (st0.1, st0.2 ++ ["Le mot de passe doit contenir au moins 8 caractères"])
  let st2 :=
    if hasLower password then (st1.1 + 1, st1.2)
    else (st1.1, st1.2 ++ ["Ajoutez des lettres minuscules"])
  let st3 :=
    if hasUpper password then (st2.1 + 1, st2.2)
    else (st2.1, st2.2 ++ ["Ajoutez des lettres majuscules"])
  let st4 :=
    if hasDigit password then (st3.1 + 1, st3.2)
    else (st3.1, st3.2 ++ ["Ajoutez des chiffres"])
  let st5 :=
    if hasSpecial password then (st4.1 + 1, st4.2)
    else (st4.1, st4.2 ++ ["Ajoutez des caractères spéciaux"])
  let st6 :=
    if password.length ≥ 12 then (st5.1 + 1, st5.2)
    else st5
  match strength_levels st6.1 with
  | none => .error .keyError
  | some label =>
      .ok { score := st6.1, max_score := 6, strength := label
            is_strong := decide (st6.1 ≥ 4), feedback := st6.2 }

/-- The score as the sum of the six awarded points, one per satisfied
criterion. -/
def scoreOf (password : String) : Nat :=
  (if password.length ≥ 8 then 1 else 0) +
  (if hasLower password then 1 else 0) +
  (if hasUpper password then 1 else 0) +
  (if hasDigit password then 1 else 0) +
  (if hasSpecial password then 1 else 0) +
  (if password.length ≥ 12 then 1 else 0)

/-!
## Theorems
-/

/-- C1: the claim says the register operation hashes the password,
replaces it with the hash in the persisted record and delegates to
`Repository.create`, returning the stored record.  The code instead
invokes `self.repository.create_user(user_data)`, a method neither
`UserRepository` nor `BaseRepository` defines, so for every validated
registration input the call raises AttributeError before any persistence
and never returns a stored record. -/
theorem C1_register_raises_attribute_error
    (hash : String → String) (user_in : UserCreate) (store : Store) :
    UserService.create_user hash user_in store =
      .error (.attributeError
        "\x27UserRepository\x27 object has no attribute \x27create_user\x27") := by
  rfl

/-- C2: the claim says issuing an access token sets `exp` to issuance
time plus the ttl (default 30 minutes) and that the subject round-trips.
The code computes the issuance time as `datetime.now(datetime.timestamp)`,
passing a method object where a tzinfo is required, so for every claim
set, every ttl (including the default) and every clock instant the
issuance raises TypeError and no token is ever produced. -/
theorem C2_issue_raises_type_error
    (data : Claims) (expires_delta : Option Int) (clock : Int) :
    create_access_token data expires_delta clock =
      .error (.typeError "tzinfo argument must be None or of a tzinfo subclass") := by
  cases expires_delta <;> rfl

/-- A decodable signed token whose claim set carries `type = "refresh"` —
the shape `create_refresh_token` is written to produce. -/
def refreshTokenExample : Token :=
  { claims := { sub := some "S", exp := some 1000, token_type := some "refresh" }
    sig_ok := true }

/-- C3: for every decodable token, `validate_token_type` fails with the
wrong-token-type error exactly when the `type` claim (defaulted to
"access" when absent) differs from the expected type, and returns the
claim set otherwise; in particular a refresh token validates against
"refresh" and is rejected against "access" with that error. -/
theorem C3_validate_token_type_exactly_on_mismatch :
    (∀ (token : Token) (now : Int) (payload : Claims) (expected_type : String),
        decode_token token now = .ok payload →
        ((validate_token_type token expected_type now =
            .error (wrongTokenTypeError expected_type)) ↔
          payload.token_type.getD "access" ≠ expected_type)
        ∧ (payload.token_type.getD "access" = expected_type →
            validate_token_type token expected_type now = .ok payload))
    ∧ validate_token_type refreshTokenExample "access" 100 =
        .error (wrongTokenTypeError "access")
    ∧ validate_token_type refreshTokenExample "refresh" 100 =
        .ok refreshTokenExample.claims := by
  refine ⟨?_, by rfl, by rfl⟩
  intro token now payload expected_type hdec
  have hval : validate_token_type token expected_type now =
      if payload.token_type.getD "access" ≠ expected_type then
        .error (wrongTokenTypeError expected_type)
      else .ok payload := by
    simp only [validate_token_type, hdec]
  by_cases hc : payload.token_type.getD "access" = expected_type <;>
    simp [hval, hc]

/-- Closed instance of C3: the general statement applied to the concrete
decodable refresh token. -/
theorem C3_validate_token_type_witness :
    ((validate_token_type refreshTokenExample "access" 100 =
        .error (wrongTokenTypeError "access")) ↔
      refreshTokenExample.claims.token_type.getD "access" ≠ "access")
    ∧ (refreshTokenExample.claims.token_type.getD "access" = "refresh" →
        validate_token_type refreshTokenExample "refresh" 100 =
          .ok refreshTokenExample.claims) :=
  ⟨(C3_validate_token_type_exactly_on_mismatch.1 refreshTokenExample 100
      refreshTokenExample.claims "access" (by rfl)).1,
   (C3_validate_token_type_exactly_on_mismatch.1 refreshTokenExample 100
      refreshTokenExample.claims "refresh" (by rfl)).2⟩

/-- Setting one field leaves every differently named field unchanged. -/
theorem FieldPatch.getField_set_of_ne (p : FieldPatch) (obj : User)
    (fname : String) (h : p.key ≠ fname) :
    (p.set obj).getField fname = obj.getField fname := by
  cases p <;>
    (simp only [FieldPatch.key] at h;
     unfold User.getField;
     split <;> simp_all [FieldPatch.set])

/-- Setting one field stores exactly the supplied value under its name. -/
theorem FieldPatch.getField_set_self (p : FieldPatch) (obj : User) :
    (p.set obj).getField p.key = some p.val := by
  cases p <;> rfl

/-- Frame lemma for the update loop: a field named by no patch entry is
left untouched. -/
theorem applyPatches_getField_of_not_mem (obj : User)
    (obj_in : List FieldPatch) (fname : String)
    (h : fname ∉ obj_in.map FieldPatch.key) :
    (applyPatches obj obj_in).getField fname = obj.getField fname := by
  induction obj_in generalizing obj with
  | nil => rfl
  | cons p rest ih =>
      simp only [List.map_cons, List.mem_cons, not_or] at h
      have : applyPatches obj (p :: rest) = applyPatches (p.set obj) rest := rfl
      rw [this, ih (p.set obj) h.2,
        FieldPatch.getField_set_of_ne p obj fname (fun hk => h.1 hk.symm)]

/-- When the patch keys are distinct (as dict keys are), each supplied
field ends up holding its supplied value. -/
theorem applyPatches_getField_of_mem (obj : User)
    (obj_in : List FieldPatch)
    (hnd : (obj_in.map FieldPatch.key).Nodup)
    (p : FieldPatch) (hp : p ∈ obj_in) :
    (applyPatches obj obj_in).getField p.key = some p.val := by
  induction obj_in generalizing obj with
  | nil => cases hp
  | cons q rest ih =>
      have hstep : applyPatches obj (q :: rest) = applyPatches (q.set obj) rest := rfl
      simp only [List.map_cons, List.nodup_cons] at hnd
      rcases List.mem_cons.mp hp with hq | hrest
      · subst hq
        rw [hstep, applyPatches_getField_of_not_mem (p.set obj) rest p.key hnd.1,
          FieldPatch.getField_set_self]
      · rw [hstep]
        exact ih (q.set obj) hnd.2 hrest

/-- C4: `Repository.update` on a missing id returns absent and leaves
the store unchanged; on an existing id it returns the record with
exactly the supplied fields replaced — every field named by no patch
entry keeps its pre-update value, every supplied field holds the
supplied value — persists it under the same id and touches no other
store entry. -/
theorem C4_update_partial_frame (store : Store) (id : String)
    (obj_in : List FieldPatch) :
    (repo_get store id = none → repo_update store id obj_in = (none, store))
    ∧ (∀ obj : User, repo_get store id = some obj →
        (repo_update store id obj_in).1 = some (applyPatches obj obj_in)
        ∧ (repo_update store id obj_in).2 = repo_save store id (applyPatches obj obj_in)
        ∧ (∀ fname : String, fname ∉ obj_in.map FieldPatch.key →
            (applyPatches obj obj_in).getField fname = obj.getField fname)
        ∧ ((obj_in.map FieldPatch.key).Nodup →
            ∀ p ∈ obj_in, (applyPatches obj obj_in).getField p.key = some p.val)
        ∧ (∀ e ∈ store, e.1 ≠ id → e ∈ (repo_update store id obj_in).2)) := by
  constructor
  · intro hmiss
    simp [repo_update, hmiss]
  · intro obj hhit
    refine ⟨by simp [repo_update, hhit], by simp [repo_update, hhit],
      fun fname h => applyPatches_getField_of_not_mem obj obj_in fname h,
      fun hnd p hp => applyPatches_getField_of_mem obj obj_in hnd p hp,
      ?_⟩
    intro e he hne
    simp only [repo_update, hhit, repo_save]
    exact List.mem_map.mpr ⟨e, he, by simp [hne]⟩

/-- A stored user record used to instantiate C4 concretely. -/
def u4 : User := User.mkDefault "a@x.com" "alice" "h0" none 0

/-- A one-record store used to instantiate C4 concretely. -/
def store4 : Store := [("u1", u4)]

/-- A partial payload setting only `full_name`, used to instantiate C4. -/
def patch4 : List FieldPatch := [.full_name (some "Alice A")]

/-- Closed instance of C4: the miss case on the empty store, and on a
one-record store a patch of `full_name` leaves `email` untouched and
stores the supplied `full_name`. -/
theorem C4_update_partial_frame_witness :
    repo_update ([] : Store) "u1" patch4 = (none, ([] : Store))
    ∧ (applyPatches u4 patch4).getField "email" = u4.getField "email"
    ∧ (applyPatches u4 patch4).getField "full_name" =
        some (FieldVal.os (some "Alice A")) :=
  ⟨(C4_update_partial_frame ([] : Store) "u1" patch4).1 rfl,
   ((C4_update_partial_frame store4 "u1" patch4).2 u4 rfl).2.2.1 "email" (by decide),
   ((C4_update_partial_frame store4 "u1" patch4).2 u4 rfl).2.2.2.1 (by decide)
     (.full_name (some "Alice A")) (by decide)⟩

/-- A registered user with email `a@x.com`, username `alice`. -/
def alice : User := User.mkDefault "a@x.com" "alice" "hash-alice" none 0

/-- A store already holding `alice`. -/
def storeWithAlice : Store := [("id1", alice)]

/-- A registration request reusing the email of `alice` with a different
username. -/
def dupRequest : UserCreate :=
  { email := "a@x.com", username := "bob", password := "Password123!" }

/-- C5 counterexample: registering `dupRequest` against a store already
holding a user with the same email is rejected with HTTP status 400
(Bad Request, "Email already registered"), not with the conflict status
409 the claim asserts. -/
theorem C5_conflict_status_counterexample :
    (api_create_user (fun s => s) dupRequest storeWithAlice).1 =
      .error (.http { status_code := 400, detail := "Email already registered" })
    ∧ (400 : Nat) ≠ 409 := by
  exact ⟨rfl, by decide⟩

/-- C5 amended: for every registration request whose email equals the
email of an already-registered user, the route-layer pre-check rejects
the request with HTTP status 400 ("Email already registered") — not the
409 conflict status — before any write occurs: the store is returned
unchanged. -/
theorem C5_duplicate_email_rejected_before_write
    (hash : String → String) (user_in : UserCreate) (store : Store)
    (hdup : ∃ e ∈ store, e.2.email = user_in.email) :
    (api_create_user hash user_in store).1 =
      .error (.http { status_code := 400, detail := "Email already registered" })
    ∧ (api_create_user hash user_in store).2 = store := by
  obtain ⟨u, hfound⟩ : ∃ u, get_by_email store user_in.email = some u := by
    have hsome : (store.find? (fun e => e.2.email = user_in.email)).isSome := by
      rw [List.find?_isSome]
      obtain ⟨e, he, heq⟩ := hdup
      exact ⟨e, he, by simp [heq]⟩
    obtain ⟨e, he⟩ := Option.isSome_iff_exists.mp hsome
    exact ⟨e.2, by simp [get_by_email, he]⟩
  constructor <;> simp [api_create_user, hfound]

/-- Closed instance of C5 amended: the duplicate registration of
`dupRequest` is rejected with status 400 and the store is unchanged. -/
theorem C5_duplicate_email_rejected_before_write_witness :
    (api_create_user (fun s => s) dupRequest storeWithAlice).1 =
      .error (.http { status_code := 400, detail := "Email already registered" })
    ∧ (api_create_user (fun s => s) dupRequest storeWithAlice).2 = storeWithAlice :=
  C5_duplicate_email_rejected_before_write (fun s => s) dupRequest storeWithAlice
    ⟨("id1", alice), by decide, by decide⟩

/-- The feedback list as the concatenation of the messages of the failed
checks, in source order (the length-12 check appends nothing). -/
def feedbackOf (password : String) : List String :=
  (if password.length ≥ 8 then []
   else ["Le mot de passe doit contenir au moins 8 caractères"]) ++
  (if hasLower password then [] else ["Ajoutez des lettres minuscules"]) ++
  (if hasUpper password then [] else ["Ajoutez des lettres majuscules"]) ++
  (if hasDigit password then [] else ["Ajoutez des chiffres"]) ++
  (if hasSpecial password then [] else ["Ajoutez des caractères spéciaux"])

set_option maxHeartbeats 2000000 in
/-- C6: for every password, `validate_password_strength` never fails and
returns the score that awards one point per satisfied criterion (length
≥ 8, lowercase, uppercase, digit, special character, length ≥ 12), a
score bounded by 6, the label read from the fixed 0-6 table, and
`is_strong` true exactly when the score reaches 4; in particular "abc"
scores 1 and is not strong, and "Abcdef12!@" scores 5 and is strong. -/
theorem C6_password_strength_scoring :
    (∀ password : String,
        scoreOf password ≤ 6
        ∧ (strength_levels (scoreOf password)).isSome = true
        ∧ validate_password_strength password =
            .ok { score := scoreOf password, max_score := 6
                  strength := (strength_levels (scoreOf password)).getD ""
                  is_strong := decide (4 ≤ scoreOf password)
                  feedback := feedbackOf password })
    ∧ (validate_password_strength "abc").map (fun r => (r.score, r.is_strong)) =
        .ok (1, false)
    ∧ (validate_password_strength "Abcdef12!@").map (fun r => (r.score, r.is_strong)) =
        .ok (5, true) := by
  refine ⟨?_, by rfl, by rfl⟩
  intro password
  simp only [validate_password_strength, scoreOf, feedbackOf]
  split_ifs <;> exact ⟨by norm_num, by rfl, by rfl⟩

/-- C7: `get_user_stats` never faults: for every store it returns the
totals with `inactive_users = total - active` and `activation_rate =
active / total * 100` guarded to 0 when the total is 0; on the empty
collection the rate is 0. -/
theorem C7_user_stats_division_guarded :
    (∀ store : Store,
        get_user_stats store =
          .ok { total_users := count_total_users store
                active_users := count_active_users store
                inactive_users :=
                  (count_total_users store : Int) - (count_active_users store : Int)
                superusers := (get_superusers store).length
                activation_rate :=
                  if count_total_users store = 0 then 0
                  else ((count_active_users store : ℚ) /
                          (count_total_users store : ℚ)) * 100 })
    ∧ get_user_stats ([] : Store) =
        .ok { total_users := 0, active_users := 0, inactive_users := 0
              superusers := 0, activation_rate := 0 } := by
  have main : ∀ store : Store,
      get_user_stats store =
        .ok { total_users := count_total_users store
              active_users := count_active_users store
              inactive_users :=
                (count_total_users store : Int) - (count_active_users store : Int)
              superusers := (get_superusers store).length
              activation_rate :=
                if count_total_users store = 0 then 0
                else ((count_active_users store : ℚ) /
                        (count_total_users store : ℚ)) * 100 } := by
    intro store
    by_cases h : count_total_users store = 0
    · simp [get_user_stats, h]
      rfl
    · have hpos : count_total_users store > 0 := Nat.pos_of_ne_zero h
      have hcast : (count_total_users store : ℚ) ≠ 0 := by
        exact_mod_cast h
      simp [get_user_stats, h, hpos, pyDiv, hcast]
      rfl
  refine ⟨main, ?_⟩
  have h0 := main ([] : Store)
  simpa [count_total_users, count_active_users, get_superusers] using h0

/-- C8: in the optional-auth guard every resolution failure — absent
credentials, undecodable token, missing `sub` claim, user not found, or
user inactive — yields the outcome "no identity" (`none`); no error
propagates out of the optional path. -/
theorem C8_optional_auth_degrades_to_none :
    (∀ (now : Int) (store : Store),
        get_current_user_optional none now store = none)
    ∧ (∀ (token : Token) (now : Int) (store : Store) (e : JWTError),
        jwt_decode token now = .error e →
        get_current_user_optional (some token) now store = none)
    ∧ (∀ (token : Token) (now : Int) (store : Store) (payload : Claims),
        jwt_decode token now = .ok payload → payload.sub = none →
        get_current_user_optional (some token) now store = none)
    ∧ (∀ (token : Token) (now : Int) (store : Store) (payload : Claims)
          (user_id : String),
        jwt_decode token now = .ok payload → payload.sub = some user_id →
        repo_get store user_id = none →
        get_current_user_optional (some token) now store = none)
    ∧ (∀ (token : Token) (now : Int) (store : Store) (payload : Claims)
          (user_id : String) (user : User),
        jwt_decode token now = .ok payload → payload.sub = some user_id →
        repo_get store user_id = some user → user.is_active = false →
        get_current_user_optional (some token) now store = none) := by
  refine ⟨fun now store => rfl, ?_, ?_, ?_, ?_⟩
  · intro token now store e hdec
    simp [get_current_user_optional, hdec]
  · intro token now store payload hdec hsub
    simp [get_current_user_optional, hdec, hsub]
  · intro token now store payload user_id hdec hsub hget
    simp [get_current_user_optional, hdec, hsub, hget]
  · intro token now store payload user_id user hdec hsub hget hact
    simp [get_current_user_optional, hdec, hsub, hget, hact]

/-- A token whose signature does not verify. -/
def badSigToken : Token := { claims := {}, sig_ok := false }

/-- A decodable token with no `sub` claim. -/
def noSubToken : Token := { claims := { exp := some 10 }, sig_ok := true }

/-- A decodable token whose subject matches no stored user. -/
def orphanToken : Token := { claims := { sub := some "ghost" }, sig_ok := true }

/-- A deactivated stored user. -/
def inactiveUser : User :=
  { User.mkDefault "i@x.com" "ina" "h1" none 0 with is_active := false }

/-- A decodable token whose subject resolves to `inactiveUser`. -/
def inactiveToken : Token := { claims := { sub := some "iid" }, sig_ok := true }

/-- A store holding only `inactiveUser`. -/
def inactiveStore : Store := [("iid", inactiveUser)]

/-- Closed instance of C8: each of the five failure modes, at a concrete
request, resolves to no identity. -/
theorem C8_optional_auth_degrades_to_none_witness :
    get_current_user_optional none 0 ([] : Store) = none
    ∧ get_current_user_optional (some badSigToken) 0 ([] : Store) = none
    ∧ get_current_user_optional (some noSubToken) 0 ([] : Store) = none
    ∧ get_current_user_optional (some orphanToken) 0 ([] : Store) = none
    ∧ get_current_user_optional (some inactiveToken) 0 inactiveStore = none :=
  ⟨C8_optional_auth_degrades_to_none.1 0 [],
   C8_optional_auth_degrades_to_none.2.1 badSigToken 0 [] .invalid rfl,
   C8_optional_auth_degrades_to_none.2.2.1 noSubToken 0 [] noSubToken.claims
     rfl rfl,
   C8_optional_auth_degrades_to_none.2.2.2.1 orphanToken 0 []
     orphanToken.claims "ghost" rfl rfl rfl,
   C8_optional_auth_degrades_to_none.2.2.2.2 inactiveToken 0 inactiveStore
     inactiveToken.claims "iid" inactiveUser rfl rfl rfl rfl⟩

/-- C9: the permission guard built from an empty required-permission
list admits every authenticated user — whatever the permission set the
`getattr` fallback yields, superuser or not — and the per-user
permission check runs only when the required list is non-empty and the
user is not a superuser, in which case admission is equivalent to every
required permission being present. -/
theorem C9_empty_permission_list_admits :
    (∀ (current_user : User) (user_permissions : List String),
        check_permissions [] current_user user_permissions = .ok current_user)
    ∧ (∀ (permissions : List String) (current_user : User)
          (user_permissions : List String),
        current_user.is_superuser = true →
        check_permissions permissions current_user user_permissions =
          .ok current_user)
    ∧ (∀ (permissions : List String) (current_user : User)
          (user_permissions : List String),
        current_user.is_superuser = false → permissions ≠ [] →
        (check_permissions permissions current_user user_permissions =
            .ok current_user
          ↔ permissions.all (fun perm => user_permissions.contains perm) = true)) := by
  refine ⟨?_, ?_, ?_⟩
  · intro current_user user_permissions
    simp [check_permissions]
  · intro permissions current_user user_permissions hsup
    simp [check_permissions, hsup]
  · intro permissions current_user user_permissions hsup hne
    by_cases hall : permissions.all (fun perm => user_permissions.contains perm) = true <;>
      simp [check_permissions, hsup, hne, hall]

/-- An active, non-superuser user with no permissions. -/
def plainUser : User := User.mkDefault "p@x.com" "plain" "h2" none 0

/-- Closed instance of C9: the empty required list admits `plainUser`
regardless of a non-empty permission set, and a non-empty required list
against an empty permission set reduces to the membership check. -/
theorem C9_empty_permission_list_admits_witness :
    check_permissions [] plainUser ["whatever"] = .ok plainUser
    ∧ (check_permissions ["admin"] plainUser [] = .ok plainUser
        ↔ (["admin"].all (fun perm => List.contains ([] : List String) perm)) = true) :=
  ⟨C9_empty_permission_list_admits.1 plainUser ["whatever"],
   C9_empty_permission_list_admits.2.2 ["admin"] plainUser [] rfl (by decide)⟩

/-- C10: a `User` constructed without supplying the status flags has
`is_active = true`, `is_gamemaster = false`, `is_superuser = false` and
`created_at` equal to the UTC construction instant, and such a fresh
user resolves successfully through the mandatory guard (in particular
its `is_active` check) without any separate activation step. -/
theorem C10_fresh_user_defaults :
    ∀ (email username hashed_password : String) (full_name : Option String)
      (utcNow : Int) (id : String) (now : Int),
      (User.mkDefault email username hashed_password full_name utcNow).is_active = true
      ∧ (User.mkDefault email username hashed_password full_name utcNow).is_gamemaster = false
      ∧ (User.mkDefault email username hashed_password full_name utcNow).is_superuser = false
      ∧ (User.mkDefault email username hashed_password full_name utcNow).created_at = utcNow
      ∧ get_current_user { claims := { sub := some id }, sig_ok := true } now
          [(id, User.mkDefault email username hashed_password full_name utcNow)] =
          .ok (User.mkDefault email username hashed_password full_name utcNow) := by
  intro email username hashed_password full_name utcNow id now
  refine ⟨rfl, rfl, rfl, rfl, ?_⟩
  simp [get_current_user, jwt_decode, repo_get, User.mkDefault]

end Rolistik
